import Mathlib

/-!
Shallow embedding of the Account Security and Session subsystem of the
HR-Employee-Management-System repository (NestJS + Sequelize), together with
theorems checking the natural-language specification against it.

Embedded source files:
- src/auth/auth.service.ts   (register, login, refreshAccessToken, logout)
- src/auth/auth.entity.ts    (RefreshTokens rows)
- src/users/users.entity.ts  (Users rows, column defaults)
- src/users/users.service.ts (create, findByEmail, findById)
- src/common/middleware/rate-limit.middleware.ts (loginLimiter)
- src/common/utils/constants.ts (device thresholds)

Timestamps are natural numbers of milliseconds since the epoch
(JavaScript Date.now). External libraries (bcryptjs, jsonwebtoken,
express-rate-limit) are modelled by executable functions that keep exactly
the behaviour the service code relies on.
-/

namespace HRMS

/-- Users row, from src/users/users.entity.ts, restricted to the columns the
auth subsystem reads or writes. Column defaults declared in the entity:
role is user, isActive true, failedLoginAttempts 0, lockedUntil null,
lastLogin null. -/
structure Account where
  id : Nat
  email : String
  name : String
  password : String
  role : String
  isActive : Bool
  failedLoginAttempts : Nat
  lockedUntil : Option Nat
  lastLogin : Option Nat
deriving Repr, DecidableEq

/-- RefreshTokens row, from src/auth/auth.entity.ts. Defaults: isRevoked
false, revokedReason null. -/
structure TokenRow where
  userId : Nat
  token : String
  expiresAt : Nat
  isRevoked : Bool
  revokedReason : Option String
deriving Repr, DecidableEq

/-- The persisted state the auth service operates on: the users table and the
refresh_tokens table. -/
structure SysState where
  users : List Account
  tokens : List TokenRow
deriving Repr, DecidableEq

/-- Model of the external bcryptjs hash: an injective tagging of the
plaintext. bcryptjs is an external npm dependency, not repository code; the
model keeps the single property the service relies on, that compare succeeds
exactly on a hash of the same plaintext. -/
def bcryptHash (plain : String) : String := "bcrypt:" ++ plain

/-- bcrypt.compare(plain, hash) as called in AuthService.login. -/
def bcryptCompare (plain hash : String) : Bool := hash == bcryptHash plain

/-- Model of jwt.sign for access tokens (external jsonwebtoken library): an
opaque string determined by the signed payload, as produced by
AuthService.generateTokens. -/
def signAccessToken (sub : Nat) (email roles : String) : String :=
  "jwt.access." ++ toString sub ++ "." ++ email ++ "." ++ roles

/-- Model of jwt.sign for refresh tokens: payload carries the subject id and
type refresh; the issuing time is part of the signature (iat claim), so
distinct sign calls yield distinct strings. -/
def signRefreshToken (sub now : Nat) : String :=
  "jwt.refresh." ++ toString sub ++ "." ++ toString now

/-- JWT_REFRESH_EXPIRY default 7d converted by convertExpiryToMs. -/
def refreshExpiryMs : Nat := 7 * 24 * 60 * 60 * 1000

/-- The 30 minute lockout window hard-coded in AuthService.login. -/
def lockDurationMs : Nat := 30 * 60 * 1000

/-- Exception messages thrown by AuthService, verbatim from
src/auth/auth.service.ts and src/users/users.service.ts. -/
def msgInvalidCredentials : String := "Invalid email or password"

def msgLockedByAttempts : String := "Account locked due to too many failed attempts"

def msgLockedActive : String := "Account is locked. Try again later"

def msgDisabled : String := "Account is disabled"

def msgEmailExists : String := "User with this email already exists"

def msgInvalidRefresh : String := "Invalid refresh token"

/-- Observable outcome of AuthService.register and AuthService.login: either
an AuthResponseDto (its two tokens) or the message of the thrown
HttpException. -/
inductive AuthResult where
  | ok (accessToken refreshToken : String)
  | err (message : String)
deriving Repr, DecidableEq

/-- UsersService.findByEmail: first users row with the given email. -/
def findByEmail (s : SysState) (email : String) : Option Account :=
  s.users.find? (fun u => u.email == email)

/-- UsersService.findById restricted to the lookup itself. -/
def findUserById (s : SysState) (id : Nat) : Option Account :=
  s.users.find? (fun u => u.id == id)

/-- Write an updated users row back by primary key, modelling the Sequelize
instance update / increment calls persisting that row. -/
def putUser (s : SysState) (u : Account) : SysState :=
  { s with users := s.users.map (fun v => if v.id == u.id then u else v) }

/-- The refresh_tokens row AuthService.storeRefreshToken creates:
expiresAt = now + 7d, entity defaults isRevoked false, revokedReason null. -/
def newTokenRow (userId : Nat) (token : String) (now : Nat) : TokenRow :=
  { userId := userId, token := token, expiresAt := now + refreshExpiryMs,
    isRevoked := false, revokedReason := none }

/-- AuthService.storeRefreshToken. -/
def storeRefreshToken (s : SysState) (now userId : Nat) (token : String) : SysState :=
  { s with tokens := s.tokens ++ [newTokenRow userId token now] }

/-- The lock test in AuthService.login line 84:
user.lockedUntil is set and the current time is before it. -/
def lockActive (lockedUntil : Option Nat) (now : Nat) : Bool :=
  match lockedUntil with
  | some t => decide (now < t)
  | none => false

/-- AuthService.login (src/auth/auth.service.ts lines 57-118) over explicit
state. The third component records whether bcrypt.compare was executed (the
observable the spec's timing requirement talks about). Control flow follows
the source exactly: find by email; compare the password; on mismatch
increment failedLoginAttempts (the repository runs on Postgres, where the
Sequelize increment reflects the new value on the instance) and lock once the
counter reaches 5; only on a match check lockedUntil, then isActive, then
reset the counters and issue tokens. -/
def login (s : SysState) (now : Nat) (email password : String) :
    AuthResult × SysState × Bool :=
  match findByEmail s email with
  | none => (AuthResult.err msgInvalidCredentials, s, false)
  | some user =>
    if bcryptCompare password user.password then
      if lockActive user.lockedUntil now then
        (AuthResult.err msgLockedActive, s, true)
      else if !user.isActive then
        (AuthResult.err msgDisabled, s, true)
      else
        let user2 := { user with
                       failedLoginAttempts := 0
                       lockedUntil := none
                       lastLogin := some now }
        let refresh := signRefreshToken user.id now
        (AuthResult.ok (signAccessToken user.id user.email user.role) refresh,
         storeRefreshToken (putUser s user2) now user.id refresh, true)
    else
      let user1 := { user with
                     failedLoginAttempts := user.failedLoginAttempts + 1 }
      if 5 ≤ user1.failedLoginAttempts then
        let user2 := { user1 with lockedUntil := some (now + lockDurationMs) }
        (AuthResult.err msgLockedByAttempts, putUser s user2, true)
      else
        (AuthResult.err msgInvalidCredentials, putUser s user1, true)

/-- AuthService.register (lines 27-55) composed with UsersService.create
(lines 20-43). The third component records whether bcrypt.hash was executed.
A fresh row is created with the entity defaults (role user, isActive true,
failedLoginAttempts 0), then a token pair is issued and the refresh token
persisted. -/
def register (s : SysState) (now newId : Nat) (userName email password : String) :
    AuthResult × SysState × Bool :=
  match findByEmail s email with
  | some _ => (AuthResult.err msgEmailExists, s, false)
  | none =>
    let user : Account :=
      { id := newId, email := email, name := userName,
        password := bcryptHash password, role := "user", isActive := true,
        failedLoginAttempts := 0, lockedUntil := none, lastLogin := none }
    let s1 : SysState := { s with users := s.users ++ [user] }
    let refresh := signRefreshToken newId now
    (AuthResult.ok (signAccessToken newId email "user") refresh,
     storeRefreshToken s1 now newId refresh, true)

/-- A presented refresh token as the service sees it: the raw string matched
against the stored rows, and the signed payload fields that jwt.verify
reconstructs (sub and exp), plus whether the signature verifies under
JWT_REFRESH_SECRET. -/
structure RefreshJwt where
  raw : String
  sub : Nat
  exp : Nat
  sigValid : Bool
deriving Repr, DecidableEq

/-- jwtService.verify for refresh tokens (external jsonwebtoken library):
returns the payload subject iff the signature is valid and the token has not
expired; otherwise it throws, which the service's catch-all turns into the
generic error. -/
def jwtVerifyRefresh (t : RefreshJwt) (now : Nat) : Option Nat :=
  if t.sigValid && decide (now < t.exp) then some t.sub else none

/-- The stored-token query in AuthService.refreshAccessToken lines 128-134:
findOne where token, userId and isRevoked false all match. -/
def findStoredToken (s : SysState) (raw : String) (sub : Nat) : Option TokenRow :=
  s.tokens.find? (fun r => r.token == raw && r.userId == sub && r.isRevoked == false)

/-- Observable outcome of AuthService.refreshAccessToken: a new access token
(no refresh token is included in its response), or the thrown message. -/
inductive RefreshResult where
  | ok (accessToken : String)
  | err (message : String)
deriving Repr, DecidableEq

/-- AuthService.refreshAccessToken (lines 120-167). Every throwing path
inside the try block (failed verify, missing or revoked or expired row,
missing user) is caught by the catch-all, so the observable message is always
the generic one. The function performs no writes: the returned state is the
input state on every path. -/
def refreshAccessToken (s : SysState) (now : Nat) (t : RefreshJwt) :
    RefreshResult × SysState :=
  match jwtVerifyRefresh t now with
  | none => (RefreshResult.err msgInvalidRefresh, s)
  | some sub =>
    match findStoredToken s t.raw sub with
    | none => (RefreshResult.err msgInvalidRefresh, s)
    | some row =>
      if row.expiresAt < now then
        (RefreshResult.err msgInvalidRefresh, s)
      else
        match findUserById s sub with
        | none => (RefreshResult.err msgInvalidRefresh, s)
        | some user =>
          (RefreshResult.ok (signAccessToken user.id user.email user.role), s)

/-- AuthService.logout (lines 169-180): update isRevoked true and
revokedReason logout on every row matching userId and token. The where clause
does not filter on isRevoked. -/
def logout (s : SysState) (userId : Nat) (raw : String) : SysState :=
  { s with tokens := s.tokens.map (fun r =>
      if r.userId == userId && r.token == raw then
        { r with isRevoked := true, revokedReason := some "logout" }
      else r) }

/-- The operations of the auth service that can touch the persisted state. -/
inductive AuthOp where
  | doLogin (now : Nat) (email password : String)
  | doRegister (now newId : Nat) (userName email password : String)
  | doRefresh (now : Nat) (t : RefreshJwt)
  | doLogout (userId : Nat) (raw : String)
deriving Repr

/-- State effect of one auth service operation. -/
def applyOp (s : SysState) : AuthOp → SysState
  | .doLogin now e p => (login s now e p).2.1
  | .doRegister now i n e p => (register s now i n e p).2.1
  | .doRefresh now t => (refreshAccessToken s now t).2
  | .doLogout uid raw => logout s uid raw

/-- Every revoked refresh-token row carries the logout reason, the only
revocation the service ever performs. -/
def RevokedInv (s : SysState) : Prop :=
  ∀ r ∈ s.tokens, r.isRevoked = false ∨ r.revokedReason = some "logout"

instance (s : SysState) : Decidable (RevokedInv s) :=
  inferInstanceAs
    (Decidable (∀ r ∈ s.tokens,
      r.isRevoked = false ∨ r.revokedReason = some "logout"))

/-- State after n consecutive login calls with the same email and password. -/
def loginTimes (s : SysState) (now : Nat) (email pw : String) : Nat → SysState
  | 0 => s
  | n + 1 => (login (loginTimes s now email pw n) now email pw).2.1

/-- CONSTANTS.DEVICE from src/common/utils/constants.ts. -/
def maxDevicesPaid : Nat := 5

/-- CONSTANTS.DEVICE.WARNING_ATTEMPT. -/
def warningAttempt : Nat := 3

/-- CONSTANTS.DEVICE.LOCK_ATTEMPT. -/
def lockAttempt : Nat := 6

/-- Decision of the device-lock policy. -/
inductive DeviceDecision where
  | allow
  | warn (changesRemaining : Nat)
  | lockedPendingReview
deriving Repr, DecidableEq

/-- Per-account device-policy state: the active fingerprint, the monotonic
change counter, and whether the account is locked pending admin review. -/
structure DeviceState where
  activeFingerprint : Option String
  changeCount : Nat
  lockedPending : Bool
deriving Repr, DecidableEq

/-- Fresh account: no device registered yet. -/
def initialDeviceState : DeviceState :=
  { activeFingerprint := none, changeCount := 0, lockedPending := false }

/-- Modelled from the spec: the devices module implementing the device-lock
policy is absent from the source tree - DeviceGuard in
src/common/guards/device.guard.ts is a stub that defers to a devices module
that does not exist, and only the thresholds in
src/common/utils/constants.ts are declared. Behaviour follows the spec's
validateOrRegisterDevice: first registration records change number 1 and is
allowed; the same fingerprint is allowed with no event; a differing
fingerprint increments the counter, warning at counter 3, locking without
activation at counter 6 or more, allowing otherwise. -/
def validateOrRegisterDevice (st : DeviceState) (fp : String) :
    DeviceDecision × DeviceState :=
  match st.activeFingerprint with
  | none =>
    (DeviceDecision.allow,
     { activeFingerprint := some fp, changeCount := 1, lockedPending := false })
  | some cur =>
    if cur == fp then (DeviceDecision.allow, st)
    else
      let n := st.changeCount + 1
      if lockAttempt ≤ n then
        (DeviceDecision.lockedPendingReview,
         { st with changeCount := n, lockedPending := true })
      else if n == warningAttempt then
        (DeviceDecision.warn (maxDevicesPaid - n),
         { activeFingerprint := some fp, changeCount := n, lockedPending := false })
      else
        (DeviceDecision.allow,
         { activeFingerprint := some fp, changeCount := n, lockedPending := false })

/-- Modelled from the spec: the policy applies only to paid-tier accounts;
free-tier accounts bypass the component entirely. -/
def deviceCheck (paid : Bool) (st : DeviceState) (fp : String) :
    DeviceDecision × DeviceState :=
  if paid then validateOrRegisterDevice st fp else (DeviceDecision.allow, st)

/-- Modelled from the spec: LockedPendingReview is a hard block on the
account's authenticated operations for paid accounts. -/
def deviceAccessAllowed (paid : Bool) (st : DeviceState) : Bool :=
  !paid || !st.lockedPending

/-- Modelled from the spec: on approve the requested device becomes active
and the policy state returns to unrestricted; the counter is not reset. On
reject the state is unchanged. -/
def adminReview (st : DeviceState) (requested : String) (approve : Bool) :
    DeviceState :=
  if approve then
    { activeFingerprint := some requested, changeCount := st.changeCount,
      lockedPending := false }
  else st

/-- Configuration record of an express-rate-limit limiter, the fields the
middleware file sets. -/
structure RateLimitConfig where
  windowMs : Nat
  maxReq : Nat
  skipSuccessfulRequests : Bool
  skipFailedRequests : Bool
deriving Repr, DecidableEq

/-- loginLimiter from src/common/middleware/rate-limit.middleware.ts lines
33-46: 5 minute window, max 5, skipSuccessfulRequests true,
skipFailedRequests false. -/
def loginLimiter : RateLimitConfig :=
  { windowMs := 5 * 60 * 1000, maxReq := 5,
    skipSuccessfulRequests := true, skipFailedRequests := false }

/-- Per-key fixed-window counter state of express-rate-limit's memory store. -/
structure RateWindowState where
  windowStart : Nat
  hits : Nat
deriving Repr, DecidableEq

/-- Outcome of the downstream handler for a request that was let through:
success is a response with status below 400, failure one at 400 or above. -/
inductive ReqOutcome where
  | success
  | failure
deriving Repr, DecidableEq

/-- Whether a completed request stays counted under the limiter's skip
options. -/
def countsToward (cfg : RateLimitConfig) (o : ReqOutcome) : Bool :=
  match o with
  | .success => !cfg.skipSuccessfulRequests
  | .failure => !cfg.skipFailedRequests

/-- Model of express-rate-limit processing one request from a fixed key:
reset the window if it elapsed, increment the hit count, reject once the
count exceeds max; for a request that was let through, the skip options
decrement the count again when the response completes with the matching
status class. -/
def rateLimitStep (cfg : RateLimitConfig) (st : RateWindowState) (now : Nat)
    (o : ReqOutcome) : Bool × RateWindowState :=
  let st1 := if st.windowStart + cfg.windowMs ≤ now then
               { windowStart := now, hits := 0 } else st
  let hits := st1.hits + 1
  if cfg.maxReq < hits then
    (false, { windowStart := st1.windowStart, hits := hits })
  else
    (true, { windowStart := st1.windowStart,
             hits := if countsToward cfg o then hits else hits - 1 })

/-- Run the limiter over a request sequence (arrival time and eventual
outcome), returning the allow/reject decision for each request. -/
def runRateLimiter (cfg : RateLimitConfig) :
    RateWindowState → List (Nat × ReqOutcome) → List Bool × RateWindowState
  | st, [] => ([], st)
  | st, (now, o) :: rest =>
    let step := rateLimitStep cfg st now o
    let next := runRateLimiter cfg step.2 rest
    (step.1 :: next.1, next.2)

/-! Helper lemmas about single-user states. -/

theorem findByEmail_single (u : Account) (ts : List TokenRow) :
    findByEmail ⟨[u], ts⟩ u.email = some u := by
  simp [findByEmail]

theorem putUser_single (u u2 : Account) (ts : List TokenRow) (h : u2.id = u.id) :
    putUser ⟨[u], ts⟩ u2 = ⟨[u2], ts⟩ := by
  simp [putUser, h]

/-- One failed attempt below the threshold: generic error, counter bumped. -/
theorem login_wrong_small (u : Account) (ts : List TokenRow) (now : Nat)
    (e pw : String) (he : u.email = e)
    (hw : bcryptCompare pw u.password = false)
    (hlt : u.failedLoginAttempts + 1 < 5) :
    login ⟨[u], ts⟩ now e pw =
      (AuthResult.err msgInvalidCredentials,
       ⟨[{ u with failedLoginAttempts := u.failedLoginAttempts + 1 }], ts⟩, true) := by
  subst he
  unfold login
  rw [findByEmail_single]
  simp only [hw, Bool.false_eq_true, if_false]
  rw [if_neg (by simp; omega)]
  simp [putUser]

/-- One failed attempt reaching the threshold: lock set, locked error. -/
theorem login_wrong_locks (u : Account) (ts : List TokenRow) (now : Nat)
    (e pw : String) (he : u.email = e)
    (hw : bcryptCompare pw u.password = false)
    (hge : 4 ≤ u.failedLoginAttempts) :
    login ⟨[u], ts⟩ now e pw =
      (AuthResult.err msgLockedByAttempts,
       ⟨[{ u with
           failedLoginAttempts := u.failedLoginAttempts + 1
           lockedUntil := some (now + lockDurationMs) }], ts⟩, true) := by
  subst he
  unfold login
  rw [findByEmail_single]
  simp only [hw, Bool.false_eq_true, if_false]
  rw [if_pos (by simp; omega)]
  simp [putUser]

/-- A correct password on an unlocked active account: response and state. -/
theorem login_correct_single (u : Account) (ts : List TokenRow) (now : Nat)
    (e pw : String) (he : u.email = e)
    (hc : bcryptCompare pw u.password = true)
    (hla : lockActive u.lockedUntil now = false)
    (hact : u.isActive = true) :
    login ⟨[u], ts⟩ now e pw =
      (AuthResult.ok (signAccessToken u.id u.email u.role)
         (signRefreshToken u.id now),
       ⟨[{ u with
           failedLoginAttempts := 0
           lockedUntil := none
           lastLogin := some now }],
        ts ++ [newTokenRow u.id (signRefreshToken u.id now) now]⟩, true) := by
  subst he
  unfold login
  rw [findByEmail_single]
  simp only [hc, if_true, hla, Bool.false_eq_true, if_false, hact,
    Bool.not_true]
  simp [putUser]
  rfl

/-! Concrete accounts and states used by witnesses and counterexamples. -/

/-- A fresh active account with no failed attempts and no lock. -/
def bobFresh : Account :=
  ⟨1, "bob@example.com", "Bob", bcryptHash "correct-horse", "user", true, 0,
   none, none⟩

/-- An account currently locked (5 failures, lock until t = 1000000). -/
def lockedBob : Account :=
  ⟨2, "locked@example.com", "Bob", bcryptHash "correct-horse", "user", true, 5,
   some 1000000, none⟩

/-- An active account with some prior failed attempts. -/
def triedBob : Account :=
  ⟨3, "tried@example.com", "Bob", bcryptHash "correct-horse", "user", true, 3,
   none, none⟩

/-- C3: starting from failedLoginAttempts 0 and no lock, wrong-password
attempts 1 through 4 answer the generic invalid-credentials error; the 5th
attempt answers the account-locked error and persists
lockedUntil = now + 30 minutes (and failedLoginAttempts = 5). -/
theorem c3_lockout_after_five (u : Account) (ts : List TokenRow) (now : Nat)
    (pw : String)
    (h0 : u.failedLoginAttempts = 0) (hl : u.lockedUntil = none)
    (hw : bcryptCompare pw u.password = false) :
    (login (loginTimes ⟨[u], ts⟩ now u.email pw 0) now u.email pw).1 =
        AuthResult.err msgInvalidCredentials ∧
    (login (loginTimes ⟨[u], ts⟩ now u.email pw 1) now u.email pw).1 =
        AuthResult.err msgInvalidCredentials ∧
    (login (loginTimes ⟨[u], ts⟩ now u.email pw 2) now u.email pw).1 =
        AuthResult.err msgInvalidCredentials ∧
    (login (loginTimes ⟨[u], ts⟩ now u.email pw 3) now u.email pw).1 =
        AuthResult.err msgInvalidCredentials ∧
    (login (loginTimes ⟨[u], ts⟩ now u.email pw 4) now u.email pw).1 =
        AuthResult.err msgLockedByAttempts ∧
    (loginTimes ⟨[u], ts⟩ now u.email pw 5).users =
      [{ u with
         failedLoginAttempts := 5
         lockedUntil := some (now + lockDurationMs) }] := by
  obtain ⟨uid, uem, unm, upw, url, uac, ufa, ulu, ull⟩ := u
  subst h0
  subst hl
  have e1 := login_wrong_small ⟨uid, uem, unm, upw, url, uac, 0, none, ull⟩
    ts now uem pw rfl hw (by simp)
  have e2 := login_wrong_small ⟨uid, uem, unm, upw, url, uac, 1, none, ull⟩
    ts now uem pw rfl hw (by simp)
  have e3 := login_wrong_small ⟨uid, uem, unm, upw, url, uac, 2, none, ull⟩
    ts now uem pw rfl hw (by simp)
  have e4 := login_wrong_small ⟨uid, uem, unm, upw, url, uac, 3, none, ull⟩
    ts now uem pw rfl hw (by simp)
  have e5 := login_wrong_locks ⟨uid, uem, unm, upw, url, uac, 4, none, ull⟩
    ts now uem pw rfl hw (by simp)
  simp only at e1 e2 e3 e4 e5
  refine ⟨?_, ?_, ?_, ?_, ?_, ?_⟩ <;>
    simp [loginTimes, e1, e2, e3, e4, e5]

/-- C3 witness at a concrete account: attempts at time 7 with a wrong
password. -/
theorem c3_lockout_witness :
    bobFresh.failedLoginAttempts = 0 ∧ bobFresh.lockedUntil = none ∧
    bcryptCompare "wrong-pw" bobFresh.password = false ∧
    ((login (loginTimes ⟨[bobFresh], []⟩ 7 bobFresh.email "wrong-pw" 0) 7
        bobFresh.email "wrong-pw").1 = AuthResult.err msgInvalidCredentials ∧
     (login (loginTimes ⟨[bobFresh], []⟩ 7 bobFresh.email "wrong-pw" 1) 7
        bobFresh.email "wrong-pw").1 = AuthResult.err msgInvalidCredentials ∧
     (login (loginTimes ⟨[bobFresh], []⟩ 7 bobFresh.email "wrong-pw" 2) 7
        bobFresh.email "wrong-pw").1 = AuthResult.err msgInvalidCredentials ∧
     (login (loginTimes ⟨[bobFresh], []⟩ 7 bobFresh.email "wrong-pw" 3) 7
        bobFresh.email "wrong-pw").1 = AuthResult.err msgInvalidCredentials ∧
     (login (loginTimes ⟨[bobFresh], []⟩ 7 bobFresh.email "wrong-pw" 4) 7
        bobFresh.email "wrong-pw").1 = AuthResult.err msgLockedByAttempts ∧
     (loginTimes ⟨[bobFresh], []⟩ 7 bobFresh.email "wrong-pw" 5).users =
       [{ bobFresh with
          failedLoginAttempts := 5
          lockedUntil := some (7 + lockDurationMs) }]) :=
  ⟨rfl, rfl, by decide,
   c3_lockout_after_five bobFresh [] 7 "wrong-pw" rfl rfl (by decide)⟩

/-- C4 counterexample: an account locked until the future (time 1000000,
request at time 0) receiving a wrong password. Contrary to the claim, the
password comparison is executed (third component true) and the account state
is modified: failedLoginAttempts is incremented to 6 and lockedUntil is
extended. -/
theorem c4_counterexample :
    (login ⟨[lockedBob], []⟩ 0 "locked@example.com" "wrong-pw").2.2 = true ∧
    (login ⟨[lockedBob], []⟩ 0 "locked@example.com" "wrong-pw").2.1 ≠
      (⟨[lockedBob], []⟩ : SysState) ∧
    (login ⟨[lockedBob], []⟩ 0 "locked@example.com" "wrong-pw").2.1.users =
      [{ lockedBob with
         failedLoginAttempts := 6
         lockedUntil := some lockDurationMs }] ∧
    (login ⟨[lockedBob], []⟩ 0 "locked@example.com" "wrong-pw").1 =
      AuthResult.err msgLockedByAttempts := by
  refine ⟨by decide, by decide, by decide, by decide⟩

/-- C4 amended: the lock test runs only after bcrypt.compare, so the
comparison is always performed. While the lock is active a correct password
yields the locked error with the state unchanged; a wrong password (with the
counter at 4 or more, as it always is while locked) increments the counter
and extends the lock to now + 30 minutes, answering the locked error. -/
theorem c4_locked_after_compare (u : Account) (ts : List TokenRow)
    (now t : Nat) (pwGood pwBad : String)
    (hlu : u.lockedUntil = some t) (hfut : now < t)
    (hgood : bcryptCompare pwGood u.password = true)
    (hbad : bcryptCompare pwBad u.password = false)
    (hge : 4 ≤ u.failedLoginAttempts) :
    login ⟨[u], ts⟩ now u.email pwGood =
      (AuthResult.err msgLockedActive, ⟨[u], ts⟩, true) ∧
    login ⟨[u], ts⟩ now u.email pwBad =
      (AuthResult.err msgLockedByAttempts,
       ⟨[{ u with
           failedLoginAttempts := u.failedLoginAttempts + 1
           lockedUntil := some (now + lockDurationMs) }], ts⟩, true) := by
  constructor
  · unfold login
    rw [findByEmail_single]
    simp only [hgood, if_true]
    rw [if_pos (by simp [lockActive, hlu, hfut])]
  · exact login_wrong_locks u ts now u.email pwBad rfl hbad hge

/-- C4 amended witness: lockedBob at time 0 (lock active until 1000000). -/
theorem c4_locked_after_compare_witness :
    lockedBob.lockedUntil = some 1000000 ∧ (0 : Nat) < 1000000 ∧
    bcryptCompare "correct-horse" lockedBob.password = true ∧
    bcryptCompare "wrong-pw" lockedBob.password = false ∧
    4 ≤ lockedBob.failedLoginAttempts ∧
    (login ⟨[lockedBob], []⟩ 0 lockedBob.email "correct-horse" =
       (AuthResult.err msgLockedActive, ⟨[lockedBob], []⟩, true) ∧
     login ⟨[lockedBob], []⟩ 0 lockedBob.email "wrong-pw" =
       (AuthResult.err msgLockedByAttempts,
        ⟨[{ lockedBob with
            failedLoginAttempts := lockedBob.failedLoginAttempts + 1
            lockedUntil := some (0 + lockDurationMs) }], []⟩, true)) :=
  ⟨rfl, by decide, by decide, by decide, by decide,
   c4_locked_after_compare lockedBob [] 0 1000000 "correct-horse" "wrong-pw"
     rfl (by decide) (by decide) (by decide) (by decide)⟩

/-- C7: a successful login (correct password, no active lock, active
account) resets failedLoginAttempts to 0, clears lockedUntil, sets lastLogin
to the current time, whatever the prior counter value, and persists a fresh
refresh-token row. -/
theorem c7_success_resets (u : Account) (ts : List TokenRow) (now : Nat)
    (pw : String)
    (hc : bcryptCompare pw u.password = true)
    (hla : lockActive u.lockedUntil now = false)
    (hact : u.isActive = true) :
    login ⟨[u], ts⟩ now u.email pw =
      (AuthResult.ok (signAccessToken u.id u.email u.role)
         (signRefreshToken u.id now),
       ⟨[{ u with
           failedLoginAttempts := 0
           lockedUntil := none
           lastLogin := some now }],
        ts ++ [newTokenRow u.id (signRefreshToken u.id now) now]⟩, true) :=
  login_correct_single u ts now u.email pw rfl hc hla hact

/-- C7 witness: triedBob (3 prior failures) logs in correctly at time 42. -/
theorem c7_success_resets_witness :
    bcryptCompare "correct-horse" triedBob.password = true ∧
    lockActive triedBob.lockedUntil 42 = false ∧
    triedBob.isActive = true ∧
    login ⟨[triedBob], []⟩ 42 triedBob.email "correct-horse" =
      (AuthResult.ok (signAccessToken triedBob.id triedBob.email triedBob.role)
         (signRefreshToken triedBob.id 42),
       ⟨[{ triedBob with
           failedLoginAttempts := 0
           lockedUntil := none
           lastLogin := some 42 }],
        [] ++ [newTokenRow triedBob.id (signRefreshToken triedBob.id 42) 42]⟩,
       true) :=
  ⟨by decide, by decide, rfl,
   c7_success_resets triedBob [] 42 "correct-horse" (by decide) (by decide)
     rfl⟩

/-- C8: a login with an email matching no account and a login with an
existing unlocked account's email but a wrong password (staying below the
lockout threshold) answer the very same generic message, so the response does
not reveal whether the email exists. -/
theorem c8_response_equivalence (s : SysState) (now1 now2 : Nat)
    (e1 e2 pw1 pw2 : String) (u : Account)
    (h1 : findByEmail s e1 = none)
    (h2 : findByEmail s e2 = some u)
    (hun : u.lockedUntil = none)
    (hw : bcryptCompare pw2 u.password = false)
    (hlt : u.failedLoginAttempts + 1 < 5) :
    (login s now1 e1 pw1).1 = AuthResult.err msgInvalidCredentials ∧
    (login s now2 e2 pw2).1 = AuthResult.err msgInvalidCredentials := by
  constructor
  · unfold login
    rw [h1]
  · unfold login
    rw [h2]
    simp only [hw, Bool.false_eq_true, if_false]
    rw [if_neg (by simp; omega)]

/-- C8 witness: unknown ghost email against bobFresh's state, and bobFresh
with a wrong password. -/
theorem c8_response_equivalence_witness :
    findByEmail ⟨[bobFresh], []⟩ "ghost@example.com" = none ∧
    findByEmail ⟨[bobFresh], []⟩ "bob@example.com" = some bobFresh ∧
    bobFresh.lockedUntil = none ∧
    bcryptCompare "wrong-pw" bobFresh.password = false ∧
    bobFresh.failedLoginAttempts + 1 < 5 ∧
    ((login ⟨[bobFresh], []⟩ 3 "ghost@example.com" "any-pw").1 =
       AuthResult.err msgInvalidCredentials ∧
     (login ⟨[bobFresh], []⟩ 4 "bob@example.com" "wrong-pw").1 =
       AuthResult.err msgInvalidCredentials) :=
  ⟨by decide, by decide, rfl, by decide, by decide,
   c8_response_equivalence ⟨[bobFresh], []⟩ 3 4 "ghost@example.com"
     "bob@example.com" "any-pw" "wrong-pw" bobFresh (by decide) (by decide)
     rfl (by decide) (by decide)⟩

/-- C10: registering with an email that already belongs to an account fails
with the conflict message and leaves the whole state unchanged; no password
hash is computed (third component false) and no refresh-token row is
persisted. -/
theorem c10_register_conflict (s : SysState) (now newId : Nat)
    (userName email pw : String) (u : Account)
    (h : findByEmail s email = some u) :
    register s now newId userName email pw =
      (AuthResult.err msgEmailExists, s, false) := by
  unfold register
  rw [h]

/-- C10 witness: registering bobFresh's email again. -/
theorem c10_register_conflict_witness :
    findByEmail ⟨[bobFresh], []⟩ "bob@example.com" = some bobFresh ∧
    register ⟨[bobFresh], []⟩ 9 77 "Mallory" "bob@example.com" "other-pw" =
      (AuthResult.err msgEmailExists, ⟨[bobFresh], []⟩, false) :=
  ⟨by decide,
   c10_register_conflict ⟨[bobFresh], []⟩ 9 77 "Mallory" "bob@example.com"
     "other-pw" bobFresh (by decide)⟩

/-! Refresh-token claims. -/

/-- refreshAccessToken never writes: the state component of its result is the
input state on every control path. -/
theorem refresh_state_unchanged (s : SysState) (now : Nat) (t : RefreshJwt) :
    (refreshAccessToken s now t).2 = s := by
  unfold refreshAccessToken
  repeat' split
  all_goals rfl

/-- Concrete state for the C1 scenario: one user, one valid stored refresh
token. -/
def rotUser : Account :=
  ⟨1, "bob@example.com", "Bob", bcryptHash "correct-horse", "user", true, 0,
   none, none⟩

def rotRow : TokenRow := ⟨1, "jwt.refresh.1.0", 1000000, false, none⟩

def rotState : SysState := ⟨[rotUser], [rotRow]⟩

def rotJwt : RefreshJwt := ⟨"jwt.refresh.1.0", 1, 1000000, true⟩

/-- C1 counterexample: presenting a valid, unexpired, non-revoked refresh
token at time 5 succeeds, but the persisted state is completely unchanged -
the presented row is not revoked (no rotated reason is written), no new
refresh-token row is created, the response carries no new refresh token, and
presenting the very same token a second time succeeds again, so the token is
not single-use. -/
theorem c1_no_rotation_counterexample :
    (refreshAccessToken rotState 5 rotJwt).1 =
      RefreshResult.ok (signAccessToken 1 "bob@example.com" "user") ∧
    (refreshAccessToken rotState 5 rotJwt).2 = rotState ∧
    (refreshAccessToken rotState 5 rotJwt).2.tokens = [rotRow] ∧
    rotRow.isRevoked = false ∧ rotRow.revokedReason = none ∧
    (refreshAccessToken ((refreshAccessToken rotState 5 rotJwt).2) 5
        rotJwt).1 =
      RefreshResult.ok (signAccessToken 1 "bob@example.com" "user") := by
  refine ⟨by decide, by decide, by decide, rfl, rfl, by decide⟩

/-- C1 amended: a refresh call presenting a signature-valid, unexpired token
whose stored row exists non-revoked and unexpired, for an existing user,
returns a fresh access token only and leaves the state untouched: the
presented row stays non-revoked, nothing is persisted, and the same token
succeeds again on a second call. -/
theorem c1_refresh_keeps_token_usable (s : SysState) (now : Nat)
    (t : RefreshJwt) (row : TokenRow) (u : Account)
    (hsig : t.sigValid = true) (hexp : now < t.exp)
    (hrow : findStoredToken s t.raw t.sub = some row)
    (hne : ¬ row.expiresAt < now)
    (hu : findUserById s t.sub = some u) :
    refreshAccessToken s now t =
      (RefreshResult.ok (signAccessToken u.id u.email u.role), s) ∧
    (refreshAccessToken (refreshAccessToken s now t).2 now t).1 =
      RefreshResult.ok (signAccessToken u.id u.email u.role) := by
  have hv : jwtVerifyRefresh t now = some t.sub := by
    simp [jwtVerifyRefresh, hsig, hexp]
  have h1 : refreshAccessToken s now t =
      (RefreshResult.ok (signAccessToken u.id u.email u.role), s) := by
    unfold refreshAccessToken
    simp only [hv]
    simp only [hrow]
    rw [if_neg hne]
    simp only [hu]
  exact ⟨h1, by rw [h1, h1]⟩

/-- C1 amended witness: the concrete single-token state at time 5. -/
theorem c1_refresh_keeps_token_usable_witness :
    rotJwt.sigValid = true ∧ (5 : Nat) < rotJwt.exp ∧
    findStoredToken rotState rotJwt.raw rotJwt.sub = some rotRow ∧
    ¬ rotRow.expiresAt < 5 ∧
    findUserById rotState rotJwt.sub = some rotUser ∧
    (refreshAccessToken rotState 5 rotJwt =
       (RefreshResult.ok (signAccessToken rotUser.id rotUser.email
          rotUser.role), rotState) ∧
     (refreshAccessToken (refreshAccessToken rotState 5 rotJwt).2 5
         rotJwt).1 =
       RefreshResult.ok (signAccessToken rotUser.id rotUser.email
         rotUser.role)) :=
  ⟨rfl, by decide, by decide, by decide, by decide,
   c1_refresh_keeps_token_usable rotState 5 rotJwt rotRow rotUser rfl
     (by decide) (by decide) (by decide) (by decide)⟩

/-- Concrete state for the C2 scenario: one revoked row (from a logout) and
one outstanding row for the same account. -/
def reuseRowRevoked : TokenRow := ⟨1, "rtA", 1000000, true, some "logout"⟩

def reuseRowLive : TokenRow := ⟨1, "rtB", 1000000, false, none⟩

def reuseState : SysState := ⟨[rotUser], [reuseRowRevoked, reuseRowLive]⟩

def reuseJwt : RefreshJwt := ⟨"rtA", 1, 1000000, true⟩

/-- C2 counterexample: presenting the already-revoked token rtA at time 5
answers only the generic invalid-refresh-token message and performs no side
effect: the state is unchanged, so the account's outstanding token rtB stays
non-revoked and no row is marked reuse-detected. -/
theorem c2_no_reuse_detection_counterexample :
    refreshAccessToken reuseState 5 reuseJwt =
      (RefreshResult.err msgInvalidRefresh, reuseState) ∧
    reuseState.tokens.get? 1 = some reuseRowLive ∧
    reuseRowLive.isRevoked = false ∧
    ∀ r ∈ (refreshAccessToken reuseState 5 reuseJwt).2.tokens,
      r.revokedReason ≠ some "reuse-detected" := by
  refine ⟨by decide, rfl, rfl, by decide⟩

/-- C2 amended: whenever the presented token has no matching non-revoked
stored row (covering both a missing row and a row already revoked), the call
answers the generic invalid-refresh-token error and changes nothing: no
TokenReused signal exists and no revoke-all side effect happens. -/
theorem c2_reuse_rejected_without_side_effect (s : SysState) (now : Nat)
    (t : RefreshJwt)
    (hnone : findStoredToken s t.raw t.sub = none) :
    refreshAccessToken s now t = (RefreshResult.err msgInvalidRefresh, s) := by
  by_cases hc : (t.sigValid && decide (now < t.exp)) = true
  · have hv : jwtVerifyRefresh t now = some t.sub := by
      unfold jwtVerifyRefresh
      rw [if_pos hc]
    unfold refreshAccessToken
    simp only [hv, hnone]
  · have hv : jwtVerifyRefresh t now = none := by
      unfold jwtVerifyRefresh
      rw [if_neg hc]
    unfold refreshAccessToken
    simp only [hv]

/-- C2 amended witness: the revoked-token state at time 5. -/
theorem c2_reuse_rejected_without_side_effect_witness :
    findStoredToken reuseState reuseJwt.raw reuseJwt.sub = none ∧
    refreshAccessToken reuseState 5 reuseJwt =
      (RefreshResult.err msgInvalidRefresh, reuseState) :=
  ⟨by decide,
   c2_reuse_rejected_without_side_effect reuseState 5 reuseJwt (by decide)⟩

/-! Revoked rows are immutable audit state. -/

/-- The token table after a login call is unchanged or extended by one fresh
non-revoked row. -/
theorem login_tokens_effect (s : SysState) (now : Nat) (e p : String) :
    ((login s now e p).2.1).tokens = s.tokens ∨
    ∃ x : TokenRow, x.isRevoked = false ∧
      ((login s now e p).2.1).tokens = s.tokens ++ [x] := by
  unfold login
  split
  · exact Or.inl rfl
  · split
    · split
      · exact Or.inl rfl
      · split
        · exact Or.inl rfl
        · exact Or.inr ⟨_, rfl, rfl⟩
    · dsimp only
      split
      · exact Or.inl rfl
      · exact Or.inl rfl

/-- The token table after a register call is unchanged or extended by one
fresh non-revoked row. -/
theorem register_tokens_effect (s : SysState) (now newId : Nat)
    (userName e p : String) :
    ((register s now newId userName e p).2.1).tokens = s.tokens ∨
    ∃ x : TokenRow, x.isRevoked = false ∧
      ((register s now newId userName e p).2.1).tokens = s.tokens ++ [x] := by
  unfold register
  repeat' split
  all_goals first
    | exact Or.inl rfl
    | exact Or.inr ⟨_, rfl, rfl⟩

/-- Indexing survives appending rows on the right. -/
theorem get?_append_left {α : Type} (l1 l2 : List α) (i : Nat) (a : α)
    (h : l1.get? i = some a) : (l1 ++ l2).get? i = some a := by
  have hlt : i < l1.length := by
    rcases List.get?_eq_some.mp h with ⟨hl, _⟩
    exact hl
  rw [List.get?_append hlt]
  exact h

/-- C9: starting from a state where every revoked row carries the logout
reason (the only reason the service ever writes), any auth operation leaves
every revoked row exactly in place with identical fields - revoked rows are
never mutated or deleted - and preserves that invariant. -/
theorem c9_revoked_rows_immutable (s : SysState) (hinv : RevokedInv s)
    (op : AuthOp) (i : Nat) (row : TokenRow)
    (hget : s.tokens.get? i = some row) (hrev : row.isRevoked = true) :
    (applyOp s op).tokens.get? i = some row ∧ RevokedInv (applyOp s op) := by
  have hmem : row ∈ s.tokens := by
    rcases List.get?_eq_some.mp hget with ⟨hl, hg⟩
    exact hg ▸ List.get_mem s.tokens i hl
  have hreason : row.revokedReason = some "logout" := by
    rcases hinv row hmem with hh | hh
    · rw [hrev] at hh
      cases hh
    · exact hh
  cases op with
  | doLogin now e p =>
    rcases login_tokens_effect s now e p with h | ⟨x, hx, h⟩
    · constructor
      · simp only [applyOp, h, hget]
      · intro r hr
        simp only [applyOp, h] at hr
        exact hinv r hr
    · constructor
      · simp only [applyOp, h]
        exact get?_append_left _ _ _ _ hget
      · intro r hr
        simp only [applyOp, h] at hr
        rcases List.mem_append.mp hr with hl | hl
        · exact hinv r hl
        · have hrx : r = x := by simpa using hl
          subst hrx
          exact Or.inl hx
  | doRegister now newId userName e p =>
    rcases register_tokens_effect s now newId userName e p with h | ⟨x, hx, h⟩
    · constructor
      · simp only [applyOp, h, hget]
      · intro r hr
        simp only [applyOp, h] at hr
        exact hinv r hr
    · constructor
      · simp only [applyOp, h]
        exact get?_append_left _ _ _ _ hget
      · intro r hr
        simp only [applyOp, h] at hr
        rcases List.mem_append.mp hr with hl | hl
        · exact hinv r hl
        · have hrx : r = x := by simpa using hl
          subst hrx
          exact Or.inl hx
  | doRefresh now t =>
    constructor
    · simp only [applyOp, refresh_state_unchanged, hget]
    · intro r hr
      simp only [applyOp, refresh_state_unchanged] at hr
      exact hinv r hr
  | doLogout uid raw =>
    constructor
    · simp only [applyOp, logout, List.get?_map, hget, Option.map_some]
      obtain ⟨ruid, rtok, rexp, rrev, rreason⟩ := row
      simp only at hrev hreason
      subst hrev
      subst hreason
      by_cases hc : (ruid == uid && rtok == raw) = true
      · simp [hc]
      · simp [hc]
    · intro r hr
      simp only [applyOp, logout] at hr
      rcases List.mem_map.mp hr with ⟨r0, hr0, hf⟩
      by_cases hc : (r0.userId == uid && r0.token == raw) = true
      · rw [if_pos hc] at hf
        subst hf
        exact Or.inr rfl
      · rw [if_neg hc] at hf
        subst hf
        exact hinv r0 hr0

/-- C9 witness: a state with one revoked row and one live row, hit by a
logout that matches the revoked row again. -/
theorem c9_revoked_rows_immutable_witness :
    RevokedInv reuseState ∧
    reuseState.tokens.get? 0 = some reuseRowRevoked ∧
    reuseRowRevoked.isRevoked = true ∧
    ((applyOp reuseState (AuthOp.doLogout 1 "rtA")).tokens.get? 0 =
       some reuseRowRevoked ∧
     RevokedInv (applyOp reuseState (AuthOp.doLogout 1 "rtA"))) :=
  ⟨by decide, rfl, rfl,
   c9_revoked_rows_immutable reuseState (by decide) (AuthOp.doLogout 1 "rtA")
     0 reuseRowRevoked rfl rfl⟩

/-! Device-lock policy claims (modelled from the spec, see
validateOrRegisterDevice). -/

/-- Run the device check over a sequence of presented fingerprints,
collecting decisions. -/
def deviceSeq (paid : Bool) (st : DeviceState) :
    List String → List DeviceDecision × DeviceState
  | [] => ([], st)
  | fp :: rest =>
    let step := deviceCheck paid st fp
    let next := deviceSeq paid step.2 rest
    (step.1 :: next.1, next.2)

/-- C5: for a paid account presenting six pairwise-changing fingerprints
from a fresh state, changes 1, 2, 4, 5 are allowed, change 3 warns, change 6
locks pending review; while locked, authenticated access is blocked, and an
admin approval restores access. A free-tier account is always allowed and
never blocked. -/
theorem c5_device_lock_thresholds (f1 f2 f3 f4 f5 f6 : String)
    (st : DeviceState) (fp : String)
    (h21 : (f1 == f2) = false) (h32 : (f2 == f3) = false)
    (h43 : (f3 == f4) = false) (h54 : (f4 == f5) = false)
    (h65 : (f5 == f6) = false) :
    (deviceSeq true initialDeviceState [f1, f2, f3, f4, f5, f6]).1 =
      [DeviceDecision.allow, DeviceDecision.allow, DeviceDecision.warn 2,
       DeviceDecision.allow, DeviceDecision.allow,
       DeviceDecision.lockedPendingReview] ∧
    deviceAccessAllowed true
      (deviceSeq true initialDeviceState [f1, f2, f3, f4, f5, f6]).2 =
      false ∧
    deviceAccessAllowed true
      (adminReview (deviceSeq true initialDeviceState
        [f1, f2, f3, f4, f5, f6]).2 f6 true) = true ∧
    deviceCheck false st fp = (DeviceDecision.allow, st) ∧
    deviceAccessAllowed false st = true := by
  refine ⟨?_, ?_, ?_, ?_, ?_⟩
  · simp [deviceSeq, deviceCheck, validateOrRegisterDevice,
      initialDeviceState, h21, h32, h43, h54, h65, warningAttempt,
      lockAttempt, maxDevicesPaid]
  · simp [deviceSeq, deviceCheck, validateOrRegisterDevice,
      initialDeviceState, h21, h32, h43, h54, h65, warningAttempt,
      lockAttempt, maxDevicesPaid, deviceAccessAllowed]
  · simp [deviceSeq, deviceCheck, validateOrRegisterDevice,
      initialDeviceState, h21, h32, h43, h54, h65, warningAttempt,
      lockAttempt, maxDevicesPaid, deviceAccessAllowed, adminReview]
  · simp [deviceCheck]
  · simp [deviceAccessAllowed]

/-- C5 witness: six distinct fingerprints on a paid account, plus a free
account state. -/
theorem c5_device_lock_thresholds_witness :
    (("fpA" : String) == "fpB") = false ∧
    (("fpB" : String) == "fpC") = false ∧
    (("fpC" : String) == "fpD") = false ∧
    (("fpD" : String) == "fpE") = false ∧
    (("fpE" : String) == "fpF") = false ∧
    ((deviceSeq true initialDeviceState
        ["fpA", "fpB", "fpC", "fpD", "fpE", "fpF"]).1 =
      [DeviceDecision.allow, DeviceDecision.allow, DeviceDecision.warn 2,
       DeviceDecision.allow, DeviceDecision.allow,
       DeviceDecision.lockedPendingReview] ∧
     deviceAccessAllowed true
       (deviceSeq true initialDeviceState
         ["fpA", "fpB", "fpC", "fpD", "fpE", "fpF"]).2 = false ∧
     deviceAccessAllowed true
       (adminReview (deviceSeq true initialDeviceState
         ["fpA", "fpB", "fpC", "fpD", "fpE", "fpF"]).2 "fpF" true) = true ∧
     deviceCheck false ⟨some "fpA", 99, false⟩ "fpZ" =
       (DeviceDecision.allow, ⟨some "fpA", 99, false⟩) ∧
     deviceAccessAllowed false ⟨some "fpA", 99, false⟩ = true) :=
  ⟨by decide, by decide, by decide, by decide, by decide,
   c5_device_lock_thresholds "fpA" "fpB" "fpC" "fpD" "fpE" "fpF"
     ⟨some "fpA", 99, false⟩ "fpZ" (by decide) (by decide) (by decide)
     (by decide) (by decide)⟩

/-! Rate-limiter claims. -/

/-- When the window has not elapsed, one limiter step is an increment and
threshold check, with the skip options uncounting completed requests. -/
theorem rateLimitStep_no_reset (cfg : RateLimitConfig) (ws h now : Nat)
    (o : ReqOutcome) (hwin : now < ws + cfg.windowMs) :
    rateLimitStep cfg ⟨ws, h⟩ now o =
      if cfg.maxReq < h + 1 then (false, ⟨ws, h + 1⟩)
      else (true, ⟨ws, if countsToward cfg o then h + 1 else h⟩) := by
  have hc : ¬ ((⟨ws, h⟩ : RateWindowState).windowStart + cfg.windowMs ≤
      now) := by
    show ¬ (ws + cfg.windowMs ≤ now)
    omega
  unfold rateLimitStep
  rw [if_neg hc]
  rfl

/-- C6 counterexample: six successful login requests from one IP inside one
window are all allowed. With skipSuccessfulRequests true the limiter
uncounts successful requests, so the sixth request is not rejected,
contradicting the claim that every request counts regardless of outcome. -/
theorem c6_skip_successful_counterexample :
    (runRateLimiter loginLimiter ⟨0, 0⟩
      [(0, ReqOutcome.success), (1, ReqOutcome.success),
       (2, ReqOutcome.success), (3, ReqOutcome.success),
       (4, ReqOutcome.success), (5, ReqOutcome.success)]).1 =
      [true, true, true, true, true, true] ∧
    (runRateLimiter loginLimiter ⟨0, 0⟩
      [(0, ReqOutcome.success), (1, ReqOutcome.success),
       (2, ReqOutcome.success), (3, ReqOutcome.success),
       (4, ReqOutcome.success), (5, ReqOutcome.success)]).2.hits = 0 := by
  refine ⟨by decide, by decide⟩

/-- C6 amended: the login limiter counts only failed requests. Six failed
login requests from one IP inside one window see requests 1 through 5
allowed and request 6 rejected; a successful request that is let through
leaves the persistent hit count unchanged. -/
theorem c6_failed_requests_limited (t1 t2 t3 t4 t5 t6 : Nat)
    (st : RateWindowState) (now0 : Nat)
    (h2 : t2 < t1 + loginLimiter.windowMs)
    (h3 : t3 < t1 + loginLimiter.windowMs)
    (h4 : t4 < t1 + loginLimiter.windowMs)
    (h5 : t5 < t1 + loginLimiter.windowMs)
    (h6 : t6 < t1 + loginLimiter.windowMs)
    (hw0 : now0 < st.windowStart + loginLimiter.windowMs)
    (hh0 : st.hits < loginLimiter.maxReq) :
    (runRateLimiter loginLimiter ⟨t1, 0⟩
      [(t1, ReqOutcome.failure), (t2, ReqOutcome.failure),
       (t3, ReqOutcome.failure), (t4, ReqOutcome.failure),
       (t5, ReqOutcome.failure), (t6, ReqOutcome.failure)]).1 =
      [true, true, true, true, true, false] ∧
    rateLimitStep loginLimiter st now0 ReqOutcome.success =
      (true, ⟨st.windowStart, st.hits⟩) := by
  have hwpos : t1 < t1 + loginLimiter.windowMs := by
    simp [loginLimiter]
  have e1 : rateLimitStep loginLimiter ⟨t1, 0⟩ t1 ReqOutcome.failure =
      (true, ⟨t1, 1⟩) := by
    rw [rateLimitStep_no_reset _ _ _ _ _ hwpos]
    simp [loginLimiter, countsToward]
  have e2 : rateLimitStep loginLimiter ⟨t1, 1⟩ t2 ReqOutcome.failure =
      (true, ⟨t1, 2⟩) := by
    rw [rateLimitStep_no_reset _ _ _ _ _ h2]
    simp [loginLimiter, countsToward]
  have e3 : rateLimitStep loginLimiter ⟨t1, 2⟩ t3 ReqOutcome.failure =
      (true, ⟨t1, 3⟩) := by
    rw [rateLimitStep_no_reset _ _ _ _ _ h3]
    simp [loginLimiter, countsToward]
  have e4 : rateLimitStep loginLimiter ⟨t1, 3⟩ t4 ReqOutcome.failure =
      (true, ⟨t1, 4⟩) := by
    rw [rateLimitStep_no_reset _ _ _ _ _ h4]
    simp [loginLimiter, countsToward]
  have e5 : rateLimitStep loginLimiter ⟨t1, 4⟩ t5 ReqOutcome.failure =
      (true, ⟨t1, 5⟩) := by
    rw [rateLimitStep_no_reset _ _ _ _ _ h5]
    simp [loginLimiter, countsToward]
  have e6 : rateLimitStep loginLimiter ⟨t1, 5⟩ t6 ReqOutcome.failure =
      (false, ⟨t1, 6⟩) := by
    rw [rateLimitStep_no_reset _ _ _ _ _ h6]
    simp [loginLimiter, countsToward]
  constructor
  · simp only [runRateLimiter, e1, e2, e3, e4, e5, e6]
  · obtain ⟨ws, h⟩ := st
    simp only at hw0 hh0
    rw [rateLimitStep_no_reset _ _ _ _ _ hw0]
    rw [if_neg (by simp [loginLimiter] at hh0 ⊢; omega)]
    simp [countsToward, loginLimiter]

/-- C6 amended witness: six failed requests at times 0 through 5, and one
successful request at count 3 inside an open window. -/
theorem c6_failed_requests_limited_witness :
    (1 : Nat) < 0 + loginLimiter.windowMs ∧
    (5 : Nat) < 0 + loginLimiter.windowMs ∧
    (150 : Nat) < (⟨100, 3⟩ : RateWindowState).windowStart +
      loginLimiter.windowMs ∧
    (⟨100, 3⟩ : RateWindowState).hits < loginLimiter.maxReq ∧
    ((runRateLimiter loginLimiter ⟨0, 0⟩
       [(0, ReqOutcome.failure), (1, ReqOutcome.failure),
        (2, ReqOutcome.failure), (3, ReqOutcome.failure),
        (4, ReqOutcome.failure), (5, ReqOutcome.failure)]).1 =
       [true, true, true, true, true, false] ∧
     rateLimitStep loginLimiter ⟨100, 3⟩ 150 ReqOutcome.success =
       (true, ⟨(⟨100, 3⟩ : RateWindowState).windowStart,
         (⟨100, 3⟩ : RateWindowState).hits⟩)) :=
  ⟨by decide, by decide, by decide, by decide,
   c6_failed_requests_limited 0 1 2 3 4 5 ⟨100, 3⟩ 150 (by decide) (by decide)
     (by decide) (by decide) (by decide) (by decide) (by decide)⟩

end HRMS
